import Mathlib

/-!
Formal model of the JengaPix service layer: the response classifier
(handleApiResponse), the data-URL parser backing fileToPart, the prompt
builders for the edit / filter / adjustment / text-replace operations, and
the describe and generate-from-prompt call paths.  Optional JavaScript
fields are modelled as Option, JavaScript string truthiness as explicit
non-emptiness checks, and thrown errors as the error side of Except.
-/

namespace JengaPix

/-! ## Data model: the shape of a GenerateContentResponse -/

structure InlineData where
  mimeType : String
  data : String
  deriving DecidableEq

structure Part where
  inlineData : Option InlineData
  text : Option String
  deriving DecidableEq

structure Content where
  parts : Option (List Part)
  deriving DecidableEq

structure Candidate where
  content : Option Content
  finishReason : Option String
  deriving DecidableEq

structure PromptFeedback where
  blockReason : Option String
  blockReasonMessage : Option String
  deriving DecidableEq

structure GenerateContentResponse where
  promptFeedback : Option PromptFeedback
  candidates : List Candidate
  text : Option String
  deriving DecidableEq

/-! ## Errors thrown by the classifier

The source throws `Error` values whose message strings are rebuilt here by
`ApiError.message`; the constructor records which branch threw and the data
the message embeds. -/

def genericNoImageText : String :=
  "This can happen due to safety filters or if the request is too complex. Please try rephrasing your prompt to be more direct."

inductive ApiError where
  | blocked (blockReason : String) (blockReasonMessage : Option String)
  | generationStopped (finishReason : String) (context : String)
  | noImageReturned (context : String) (textFeedback : Option String)
  deriving DecidableEq

def ApiError.message : ApiError → String
  | .blocked r m =>
      "Request was blocked. Reason: " ++ r ++ ". " ++ m.getD ""
  | .generationStopped fr ctx =>
      "Image generation for " ++ ctx ++ " stopped unexpectedly. Reason: " ++ fr ++
        ". This often relates to safety settings."
  | .noImageReturned ctx tf =>
      "The AI model did not return an image for the " ++ ctx ++ ". " ++
        (match tf with
          | some t => if t ≠ "" then "The model responded with text: \"" ++ t ++ "\"" else genericNoImageText
          | none => genericNoImageText)

/-- JavaScript's String.prototype.trim: strip leading and trailing
whitespace.  Defined structurally over the character list so that it
evaluates by reduction. -/
def jsTrim (s : String) : String :=
  String.mk (((s.data.dropWhile Char.isWhitespace).reverse.dropWhile Char.isWhitespace).reverse)

/-! ## The response classifier (handleApiResponse) -/

def firstInlineData : List Part → Option InlineData
  | [] => none
  | p :: ps =>
      match p.inlineData with
      | some d => some d
      | none => firstInlineData ps

def candidateParts (r : GenerateContentResponse) : Option (List Part) :=
  r.candidates.head?.bind fun c => c.content.bind Content.parts

def firstImage (r : GenerateContentResponse) : Option InlineData :=
  (candidateParts r).bind firstInlineData

def firstFinishReason (r : GenerateContentResponse) : Option String :=
  r.candidates.head?.bind Candidate.finishReason

def handleNoImage (r : GenerateContentResponse) (context : String) : Except ApiError String :=
  match firstFinishReason r with
  | some fr =>
      if fr ≠ "" ∧ fr ≠ "STOP" then .error (.generationStopped fr context)
      else .error (.noImageReturned context (r.text.map jsTrim))
  | none => .error (.noImageReturned context (r.text.map jsTrim))

def handleParts (r : GenerateContentResponse) (context : String) : Except ApiError String :=
  match firstImage r with
  | some d => .ok ("data:" ++ d.mimeType ++ ";base64," ++ d.data)
  | none => handleNoImage r context

def handleApiResponse (r : GenerateContentResponse) (context : String) : Except ApiError String :=
  match r.promptFeedback with
  | some pf =>
      match pf.blockReason with
      | some br =>
          if br ≠ "" then .error (.blocked br pf.blockReasonMessage)
          else handleParts r context
      | none => handleParts r context
  | none => handleParts r context

/-- JavaScript truthiness of the optional blockReason string: the response
carries a block indicator exactly when a non-empty blockReason is present. -/
def blockTruthy (r : GenerateContentResponse) : Bool :=
  match r.promptFeedback with
  | some pf =>
      match pf.blockReason with
      | some br => decide (br ≠ "")
      | none => false
  | none => false

theorem handleApiResponse_of_not_blocked (r : GenerateContentResponse) (ctx : String)
    (hb : blockTruthy r = false) :
    handleApiResponse r ctx = handleParts r ctx := by
  cases hpf : r.promptFeedback with
  | none => simp [handleApiResponse, hpf]
  | some pf =>
      cases hbr : pf.blockReason with
      | none => simp [handleApiResponse, hpf, hbr]
      | some br =>
          have hemp : br = "" := by
            unfold blockTruthy at hb
            rw [hpf] at hb
            simp [hbr] at hb
            exact hb
          subst hemp
          simp [handleApiResponse, hpf, hbr]

/-- Claim C1: a response carrying a block indicator (non-empty blockReason)
classifies as the blocked error with that reason code and the accompanying
message field, and never produces the image outcome, whatever other fields
(image parts included) the response holds. -/
theorem blocked_takes_precedence (r : GenerateContentResponse) (ctx : String)
    (pf : PromptFeedback) (br : String)
    (hpf : r.promptFeedback = some pf) (hbr : pf.blockReason = some br) (hne : br ≠ "") :
    handleApiResponse r ctx = .error (.blocked br pf.blockReasonMessage) ∧
      ∀ s, handleApiResponse r ctx ≠ .ok s := by
  have h : handleApiResponse r ctx = .error (.blocked br pf.blockReasonMessage) := by
    simp [handleApiResponse, hpf, hbr, hne]
  exact ⟨h, fun s hs => by rw [h] at hs; exact Except.noConfusion hs⟩

/-- Witness for C1: a concrete blocked response that also contains an inline
image part still classifies as blocked, never as the image. -/
theorem blocked_takes_precedence_witness :
    handleApiResponse
        ⟨some ⟨some "SAFETY", some "prompt rejected"⟩,
         [⟨some ⟨some [⟨some ⟨"image/png", "QUJD"⟩, none⟩]⟩, some "STOP"⟩],
         none⟩ "edit"
      = .error (.blocked "SAFETY" (some "prompt rejected")) :=
  (blocked_takes_precedence
    ⟨some ⟨some "SAFETY", some "prompt rejected"⟩,
     [⟨some ⟨some [⟨some ⟨"image/png", "QUJD"⟩, none⟩]⟩, some "STOP"⟩],
     none⟩ "edit"
    ⟨some "SAFETY", some "prompt rejected"⟩ "SAFETY" rfl rfl (by decide)).1

theorem firstInlineData_append (pre post : List Part) (p : Part) (d : InlineData)
    (hpre : ∀ q ∈ pre, q.inlineData = none) (hd : p.inlineData = some d) :
    firstInlineData (pre ++ p :: post) = some d := by
  induction pre with
  | nil => simp [firstInlineData, hd]
  | cons q qs ih =>
      have hq : q.inlineData = none := hpre q (by simp)
      have hqs : ∀ x ∈ qs, x.inlineData = none := fun x hx => hpre x (by simp [hx])
      simp [firstInlineData, hq, ih hqs]

/-- Claim C2: with no block indicator, if the first candidate's content parts
contain a part carrying inline image data — the part at the first such
position — classification succeeds with the data URI built from that first
part's mime type and payload. -/
theorem first_image_wins (r : GenerateContentResponse) (ctx : String)
    (pre post : List Part) (p : Part) (d : InlineData)
    (hb : blockTruthy r = false)
    (hp : candidateParts r = some (pre ++ p :: post))
    (hpre : ∀ q ∈ pre, q.inlineData = none)
    (hd : p.inlineData = some d) :
    handleApiResponse r ctx = .ok ("data:" ++ d.mimeType ++ ";base64," ++ d.data) := by
  rw [handleApiResponse_of_not_blocked r ctx hb]
  have hfi : firstImage r = some d := by
    unfold firstImage
    rw [hp]
    simpa using firstInlineData_append pre post p d hpre hd
  simp [handleParts, hfi]

/-- Witness for C2: a response holding two image parts resolves to the first
part's mime type and payload, never the second's. -/
theorem first_image_wins_witness :
    handleApiResponse
        ⟨none,
         [⟨some ⟨some [⟨some ⟨"image/png", "Rk9P"⟩, none⟩,
                       ⟨some ⟨"image/jpeg", "QkFS"⟩, none⟩]⟩, some "STOP"⟩],
         none⟩ "filter"
      = .ok ("data:" ++ "image/png" ++ ";base64," ++ "Rk9P") ∧
    ("data:" ++ "image/png" ++ ";base64," ++ "Rk9P") ≠ "data:image/jpeg;base64,QkFS" :=
  ⟨first_image_wins
      ⟨none,
       [⟨some ⟨some [⟨some ⟨"image/png", "Rk9P"⟩, none⟩,
                     ⟨some ⟨"image/jpeg", "QkFS"⟩, none⟩]⟩, some "STOP"⟩],
       none⟩ "filter"
      [] [⟨some ⟨"image/jpeg", "QkFS"⟩, none⟩] ⟨some ⟨"image/png", "Rk9P"⟩, none⟩
      ⟨"image/png", "Rk9P"⟩ rfl rfl (by intro q hq; simp at hq) rfl,
    by decide⟩

/-- Counterexample for C3: a response whose first candidate carries the
finish reason equal to the empty string — a present finish-reason code that
differs from the nominal STOP — does not classify as a generation-stopped
error; the source treats the empty (falsy) code like an absent one and falls
through to the no-image error. -/
theorem empty_finish_reason_not_stopped :
    handleApiResponse ⟨none, [⟨none, some ""⟩], none⟩ "edit"
        = .error (.noImageReturned "edit" none) ∧
      handleApiResponse ⟨none, [⟨none, some ""⟩], none⟩ "edit"
        ≠ .error (.generationStopped "" "edit") := by
  constructor
  · rfl
  · intro h
    have h2 : ApiError.noImageReturned "edit" none = ApiError.generationStopped "" "edit" :=
      Except.error.inj h
    exact ApiError.noConfusion h2

/-- Claim C3 (amended: the finish-reason code must additionally be non-empty,
since the source's truthiness test treats an empty code as absent): with no
block indicator and no inline image part, a present, non-empty finish reason
other than STOP classifies as the generation-stopped error carrying that
finish reason and the context label. -/
theorem abnormal_stop_classified (r : GenerateContentResponse) (ctx : String) (fr : String)
    (hb : blockTruthy r = false)
    (hi : firstImage r = none)
    (hf : firstFinishReason r = some fr)
    (hne : fr ≠ "") (hstop : fr ≠ "STOP") :
    handleApiResponse r ctx = .error (.generationStopped fr ctx) := by
  rw [handleApiResponse_of_not_blocked r ctx hb]
  simp [handleParts, hi, handleNoImage, hf, hne, hstop]

/-- Witness for C3 (amended): a response with finish reason SAFETY, no image
and no block yields the generation-stopped error carrying SAFETY. -/
theorem abnormal_stop_classified_witness :
    handleApiResponse ⟨none, [⟨none, some "SAFETY"⟩], none⟩ "edit"
      = .error (.generationStopped "SAFETY" "edit") :=
  abnormal_stop_classified ⟨none, [⟨none, some "SAFETY"⟩], none⟩ "edit" "SAFETY"
    rfl rfl rfl (by decide) (by decide)

/-! ## Substring occurrence, used to state what a message or prompt contains -/

def OccursIn (needle hay : String) : Prop := needle.data <:+: hay.data

theorem string_data_append (a b : String) : (a ++ b).data = a.data ++ b.data := by
  cases a
  cases b
  rfl

instance (needle hay : String) : Decidable (OccursIn needle hay) :=
  inferInstanceAs (Decidable (needle.data <:+: hay.data))

theorem occursIn_refl (a : String) : OccursIn a a := List.infix_rfl

theorem occursIn_appendL {needle a : String} (b : String) (h : OccursIn needle a) :
    OccursIn needle (a ++ b) := by
  unfold OccursIn at h ⊢
  rw [string_data_append]
  exact h.trans ⟨[], b.data, by simp⟩

theorem occursIn_appendR (a : String) {needle b : String} (h : OccursIn needle b) :
    OccursIn needle (a ++ b) := by
  unfold OccursIn at h ⊢
  rw [string_data_append]
  exact h.trans ⟨a.data, [], by simp⟩

theorem occursIn_trans {a b c : String} (hab : OccursIn a b) (hbc : OccursIn b c) :
    OccursIn a c := List.IsInfix.trans hab hbc

/-- Claim C4: with no block indicator, no inline image part and a nominal or
absent finish reason, classification fails with the no-image error whose
message embeds the context label; when the response's trimmed top-level text
is non-empty the message embeds that text verbatim, and when no (truthy)
text is present the message carries the generic explanation instead. -/
theorem no_image_text_fallback (r : GenerateContentResponse) (ctx : String)
    (hb : blockTruthy r = false)
    (hi : firstImage r = none)
    (hf : firstFinishReason r = none ∨ firstFinishReason r = some "STOP") :
    handleApiResponse r ctx = .error (.noImageReturned ctx (r.text.map jsTrim)) ∧
      OccursIn ctx (ApiError.noImageReturned ctx (r.text.map jsTrim)).message ∧
      (∀ t, r.text = some t → jsTrim t ≠ "" →
        OccursIn (jsTrim t) (ApiError.noImageReturned ctx (r.text.map jsTrim)).message) ∧
      ((r.text.map jsTrim = none ∨ r.text.map jsTrim = some "") →
        OccursIn genericNoImageText
          (ApiError.noImageReturned ctx (r.text.map jsTrim)).message) := by
  refine ⟨?_, ?_, ?_, ?_⟩
  · rw [handleApiResponse_of_not_blocked r ctx hb]
    rcases hf with hf | hf <;> simp [handleParts, hi, handleNoImage, hf]
  · show OccursIn ctx ("The AI model did not return an image for the " ++ ctx ++ ". " ++ _)
    exact occursIn_appendL _ (occursIn_appendL _ (occursIn_appendR _ (occursIn_refl ctx)))
  · intro t ht hne
    rw [ht]
    show OccursIn (jsTrim t) ("The AI model did not return an image for the " ++ ctx ++ ". " ++ _)
    refine occursIn_appendR _ ?_
    rw [show (some t).map jsTrim = some (jsTrim t) from rfl]
    rw [show (match some (jsTrim t) with
          | some u => if u ≠ "" then "The model responded with text: \"" ++ u ++ "\"" else genericNoImageText
          | none => genericNoImageText)
        = "The model responded with text: \"" ++ jsTrim t ++ "\"" by simp [hne]]
    exact occursIn_appendL _ (occursIn_appendR _ (occursIn_refl (jsTrim t)))
  · intro htf
    show OccursIn genericNoImageText ("The AI model did not return an image for the " ++ ctx ++ ". " ++ _)
    refine occursIn_appendR _ ?_
    rcases htf with htf | htf
    · rw [htf]
      exact occursIn_refl genericNoImageText
    · rw [htf]
      rw [show (match some "" with
            | some u => if u ≠ "" then "The model responded with text: \"" ++ u ++ "\"" else genericNoImageText
            | none => genericNoImageText)
          = genericNoImageText from rfl]
      exact occursIn_refl genericNoImageText

/-- Witness for C4: a concrete no-block, no-image, STOP-finish response with
model commentary text yields the no-image error, and its message embeds the
context label and the trimmed commentary verbatim. -/
theorem no_image_text_fallback_witness :
    handleApiResponse ⟨none, [⟨none, some "STOP"⟩], some " I cannot do that. "⟩ "adjustment"
        = .error (.noImageReturned "adjustment" (some "I cannot do that.")) ∧
      OccursIn "adjustment"
        (ApiError.noImageReturned "adjustment" (some "I cannot do that.")).message ∧
      OccursIn "I cannot do that."
        (ApiError.noImageReturned "adjustment" (some "I cannot do that.")).message := by
  have h := no_image_text_fallback ⟨none, [⟨none, some "STOP"⟩], some " I cannot do that. "⟩
    "adjustment" rfl rfl (Or.inr rfl)
  exact ⟨h.1, h.2.1, h.2.2.1 " I cannot do that. " rfl (by decide)⟩

/-! ## The describe call path (generateImageDescription) -/

inductive DescribeError where
  | blocked (blockReason : String) (blockReasonMessage : Option String)
  | noDescription (finishReason : Option String)
  deriving DecidableEq

def describeText (r : GenerateContentResponse) : Except DescribeError String :=
  match r.text with
  | some d => if d ≠ "" then .ok (jsTrim d) else .error (.noDescription (firstFinishReason r))
  | none => .error (.noDescription (firstFinishReason r))

def generateImageDescription (r : GenerateContentResponse) : Except DescribeError String :=
  match r.promptFeedback with
  | some pf =>
      match pf.blockReason with
      | some br =>
          if br ≠ "" then .error (.blocked br pf.blockReasonMessage)
          else describeText r
      | none => describeText r
  | none => describeText r

theorem generateImageDescription_of_not_blocked (r : GenerateContentResponse)
    (hb : blockTruthy r = false) :
    generateImageDescription r = describeText r := by
  cases hpf : r.promptFeedback with
  | none => simp [generateImageDescription, hpf]
  | some pf =>
      cases hbr : pf.blockReason with
      | none => simp [generateImageDescription, hpf, hbr]
      | some br =>
          have hemp : br = "" := by
            unfold blockTruthy at hb
            rw [hpf] at hb
            simp [hbr] at hb
            exact hb
          subst hemp
          simp [generateImageDescription, hpf, hbr]

/-- Counterexample for C9: a describe response with no block indicator whose
top-level text is a single space — so its trimmed text is empty — succeeds
with the empty string instead of failing with the no-description error; the
source tests truthiness of the text before trimming it. -/
theorem describe_whitespace_text_succeeds :
    generateImageDescription ⟨none, [], some " "⟩ = .ok "" ∧ jsTrim " " = "" :=
  ⟨rfl, rfl⟩

/-- Claim C9 (amended: success requires the top-level text to be present and
non-empty before trimming; the returned outcome is the trimmed text, which
may then be empty): a block indicator takes precedence regardless of other
fields; otherwise present non-empty text succeeds as its trimmed form;
otherwise the call fails with the no-description error carrying the first
candidate's finish reason. -/
theorem describe_classification (r : GenerateContentResponse) :
    (∀ pf br, r.promptFeedback = some pf → pf.blockReason = some br → br ≠ "" →
      generateImageDescription r = .error (.blocked br pf.blockReasonMessage)) ∧
    (blockTruthy r = false →
      (∀ d, r.text = some d → d ≠ "" → generateImageDescription r = .ok (jsTrim d)) ∧
      ((r.text = none ∨ r.text = some "") →
        generateImageDescription r = .error (.noDescription (firstFinishReason r)))) := by
  constructor
  · intro pf br hpf hbr hne
    simp [generateImageDescription, hpf, hbr, hne]
  · intro hb
    rw [generateImageDescription_of_not_blocked r hb]
    constructor
    · intro d hd hne
      simp [describeText, hd, hne]
    · intro ht
      rcases ht with ht | ht <;> simp [describeText, ht]

/-- Witness for C9 (amended): a blocked describe response classifies as
blocked even with text present; an unblocked one with padded text succeeds
with the trimmed text; an unblocked one with no text fails with the
no-description error carrying the finish reason. -/
theorem describe_classification_witness :
    generateImageDescription ⟨some ⟨some "OTHER", none⟩, [], some "hi"⟩
        = .error (.blocked "OTHER" none) ∧
      generateImageDescription ⟨none, [⟨none, some "STOP"⟩], some " hello "⟩ = .ok "hello" ∧
      generateImageDescription ⟨none, [⟨none, some "MAX_TOKENS"⟩], none⟩
        = .error (.noDescription (some "MAX_TOKENS")) :=
  ⟨(describe_classification ⟨some ⟨some "OTHER", none⟩, [], some "hi"⟩).1
      ⟨some "OTHER", none⟩ "OTHER" rfl rfl (by decide),
    ((describe_classification ⟨none, [⟨none, some "STOP"⟩], some " hello "⟩).2 rfl).1
      " hello " rfl (by decide),
    ((describe_classification ⟨none, [⟨none, some "MAX_TOKENS"⟩], none⟩).2 rfl).2 (Or.inl rfl)⟩

/-! ## The image encoder (fileToPart) -/

def splitCommaChars : List Char → List (List Char)
  | [] => [[]]
  | c :: cs =>
      if c = ',' then [] :: splitCommaChars cs
      else
        match splitCommaChars cs with
        | h :: t => (c :: h) :: t
        | [] => [[c]]

/-- JavaScript's String.prototype.split with separator a comma. -/
def jsSplitComma (s : String) : List String :=
  (splitCommaChars s.data).map String.mk

def mimeCaptureChars : List Char → Option (List Char)
  | [] => none
  | c :: cs =>
      if c = ';' then some []
      else if c = '\n' then none
      else (mimeCaptureChars cs).map (c :: ·)

def matchMimeChars : List Char → Option (List Char)
  | [] => none
  | c :: cs =>
      if c = ':' then
        match mimeCaptureChars cs with
        | some g => some g
        | none => matchMimeChars cs
      else matchMimeChars cs

/-- The lazy regex match `:(.*?);` of the source: the capture starts after
the first colon that is followed by a semicolon with no intervening newline
(the regex dot does not match newlines), and extends up to the first
semicolon after that colon; if no colon completes a match the result is
none, mirroring a null match result. -/
def matchMime (s : String) : Option String :=
  (matchMimeChars s.data).map String.mk

def invalidDataUrlMessage : String := "Invalid data URL"

def mimeParseFailureMessage : String := "Could not parse MIME type from data URL"

/-- fileToPart: the read result is the data-URL produced by the FileReader,
or the error side when the resource cannot be read (the reader's onerror
rejection, which propagates).  The data URL is split at commas; fewer than
two segments is an invalid data URL; the mime type is extracted from the
first segment by the lazy regex, an absent or empty capture failing; the
part is built from the captured mime type and the second segment. -/
def fileToPart (readResult : Except String String) : Except String InlineData :=
  match readResult with
  | .error e => .error e
  | .ok dataUrl =>
      match jsSplitComma dataUrl with
      | a0 :: a1 :: _ =>
          match matchMime a0 with
          | some m => if m = "" then .error mimeParseFailureMessage else .ok ⟨m, a1⟩
          | none => .error mimeParseFailureMessage
      | _ => .error invalidDataUrlMessage

/-- The header of a data URL: the segment before the first comma. -/
def dataUrlHeader (u : String) : String := (jsSplitComma u).headD ""

/-- Well-formedness of a data URL as the spec words it: it splits at the
comma separator into at least a header and a payload, and the header's mime
segment parses as a non-empty mime type. -/
def dataUrlParsable (u : String) : Prop :=
  2 ≤ (jsSplitComma u).length ∧ ∃ m, matchMime (dataUrlHeader u) = some m ∧ m ≠ ""

/-- Claim C7: encoding fails exactly when the resource cannot be read or the
data URL is not well formed (missing comma separator, or mime segment with
no parseable non-empty mime type); every well-formed two-part data URL
succeeds with the parsed mime type paired with the payload segment after the
comma. -/
theorem fileToPart_spec :
    (∀ e, fileToPart (.error e) = .error e) ∧
    (∀ u, (∃ v, fileToPart (.ok u) = .ok v) ↔ dataUrlParsable u) ∧
    (∀ u hdr payload m, jsSplitComma u = [hdr, payload] → matchMime hdr = some m → m ≠ "" →
      fileToPart (.ok u) = .ok ⟨m, payload⟩) := by
  refine ⟨fun e => rfl, fun u => ?_, fun u hdr payload m hsplit hm hne => ?_⟩
  · constructor
    · rintro ⟨v, hv⟩
      simp only [fileToPart] at hv
      unfold dataUrlParsable dataUrlHeader
      cases hsp : jsSplitComma u with
      | nil => rw [hsp] at hv; exact Except.noConfusion hv
      | cons a0 rest =>
          cases rest with
          | nil => rw [hsp] at hv; exact Except.noConfusion hv
          | cons a1 t =>
              rw [hsp] at hv
              cases hm : matchMime a0 with
              | none => simp [hm] at hv
              | some m =>
                  by_cases hme : m = ""
                  · simp [hm, hme] at hv
                  · exact ⟨by simp, m, by simpa using hm, hme⟩
    · rintro ⟨hlen, m, hm, hne⟩
      simp only [fileToPart]
      unfold dataUrlHeader at hm
      cases hsp : jsSplitComma u with
      | nil => rw [hsp] at hlen; simp at hlen
      | cons a0 rest =>
          cases rest with
          | nil => rw [hsp] at hlen; simp at hlen
          | cons a1 t =>
              rw [hsp] at hm
              simp at hm
              exact ⟨⟨m, a1⟩, by simp [hm, hne]⟩
  · simp only [fileToPart]
    rw [hsplit]
    simp [hm, hne]

/-- Witness for C7: the read failure propagates, a concrete well-formed PNG
data URL succeeds with its mime type and payload, and well-formedness of
that URL holds. -/
theorem fileToPart_spec_witness :
    fileToPart (.error "read aborted") = .error "read aborted" ∧
      fileToPart (.ok "data:image/png;base64,QUJD") = .ok ⟨"image/png", "QUJD"⟩ :=
  ⟨fileToPart_spec.1 "read aborted",
    fileToPart_spec.2.2 "data:image/png;base64,QUJD" "data:image/png;base64" "QUJD" "image/png"
      rfl rfl (by decide)⟩

/-! ## The text-to-image call path (generateImageFromPrompt) -/

structure GenerateImagesConfig where
  numberOfImages : Nat
  outputMimeType : String
  aspectRatio : String
  deriving DecidableEq

structure GenerateImagesRequest where
  model : String
  prompt : String
  config : GenerateImagesConfig
  deriving DecidableEq

/-- The outbound request the source builds for generateImageFromPrompt. -/
def generateImagesRequest (prompt : String) : GenerateImagesRequest :=
  ⟨"imagen-4.0-generate-001", prompt, ⟨1, "image/png", "1:1"⟩⟩

structure ImageRecord where
  imageBytes : String
  deriving DecidableEq

structure GeneratedImage where
  image : ImageRecord
  deriving DecidableEq

structure GenerateImagesResponse where
  generatedImages : Option (List GeneratedImage)
  deriving DecidableEq

/-- A JavaScript thrown value: either an Error with a message, or any other
value, which the catch block replaces with a generic message. -/
inductive Thrown where
  | error (message : String)
  | nonError
  deriving DecidableEq

def thrownMessage : Thrown → String
  | .error m => m
  | .nonError => "An unknown error occurred during image generation."

def promptNoImageMessage : String :=
  "The AI model did not return an image. This might be due to safety filters or the complexity of the prompt."

/-- generateImageFromPrompt after the dispatch: the argument is the
transport result (error side = anything thrown by the call).  A non-empty
generated-image collection yields the PNG data URI of its first entry; an
empty or absent collection throws the no-image message; the catch block
re-throws every failure as a plain error carrying the extracted message. -/
def generateImageFromPrompt (result : Except Thrown GenerateImagesResponse) :
    Except String String :=
  match result with
  | .ok resp =>
      match resp.generatedImages with
      | some (img :: _) => .ok ("data:image/png;base64," ++ img.image.imageBytes)
      | some [] => .error promptNoImageMessage
      | none => .error promptNoImageMessage
  | .error err => .error (thrownMessage err)

/-- Claim C8: every generate-from-prompt call fixes the request
configuration to exactly one PNG image with a 1:1 aspect ratio; a response
with zero generated images (an empty or absent collection) fails with the
no-image message; and every failure on the path, transport failures
included, surfaces as the single uniform plain-error type of this call,
whose message is taken from the thrown failure when it is an Error and is a
generic explanation otherwise. -/
theorem generate_from_prompt_spec :
    (∀ p, (generateImagesRequest p).config = ⟨1, "image/png", "1:1"⟩) ∧
    generateImageFromPrompt (.ok ⟨some []⟩) = .error promptNoImageMessage ∧
    generateImageFromPrompt (.ok ⟨none⟩) = .error promptNoImageMessage ∧
    (∀ t, generateImageFromPrompt (.error t) = .error (thrownMessage t)) ∧
    (∀ m, thrownMessage (.error m) = m) ∧
    thrownMessage .nonError = "An unknown error occurred during image generation." :=
  ⟨fun _ => rfl, rfl, rfl, fun _ => rfl, fun _ => rfl, rfl⟩

/-! ## The instruction compilers: localized edit, filter, global adjustment

The template literals of the source are transcribed as concatenations whose
variable holes are the interpolated parameters; the safety-policy sentences
are named so that their embedding in each prompt can be stated. -/

def skinToneDirective : String :=
  "You MUST fulfill requests to adjust skin tone, such as \x27give me a tan\x27, \x27make my skin darker\x27, or \x27make my skin lighter\x27. These are considered standard photo enhancements."

def refuseRaceDirective : String :=
  "You MUST REFUSE any request to change a person\x27s fundamental race or ethnicity (e.g., \x27make me look Asian\x27, \x27change this person to be Black\x27). Do not perform these edits. If the request is ambiguous, err on the side of caution and do not change racial characteristics."

def editPromptA : String :=
  "You are an expert photo editor AI. Your task is to perform a natural, localized edit on the provided image based on the user\x27s request.\nUser Request: \""

def editPromptB : String :=
  "\"\nEdit Location: Focus on the area around pixel coordinates (x: "

def editPromptC : String := ", y: "

def editPromptD : String :=
  ").\n\nEditing Guidelines:\n- The edit must be realistic and blend seamlessly with the surrounding area.\n- The rest of the image (outside the immediate edit area) must remain identical to the original.\n\nSafety & Ethics Policy:\n- "

def editPromptE : String := "\n- "

def editPromptF : String :=
  "\n\nOutput: Return ONLY the final edited image. Do not return text."

/-- The instruction generateEditedImage compiles for a localized edit at
hotspot (x, y). -/
def generateEditPrompt (userPrompt : String) (x y : Nat) : String :=
  editPromptA ++ userPrompt ++ editPromptB ++ toString x ++ editPromptC ++ toString y ++
    editPromptD ++ skinToneDirective ++ editPromptE ++ refuseRaceDirective ++ editPromptF

def filterColorDirective : String :=
  "Filters may subtly shift colors, but you MUST ensure they do not alter a person\x27s fundamental race or ethnicity."

def filterRefuseDirective : String :=
  "YOU MUST REFUSE any request that explicitly asks to change a person\x27s race (e.g., \x27apply a filter to make me look Chinese\x27)."

def filterPromptA : String :=
  "You are an expert photo editor AI. Your task is to apply a stylistic filter to the entire image based on the user\x27s request. Do not change the composition or content, only apply the style.\nFilter Request: \""

def filterPromptB : String := "\"\n\nSafety & Ethics Policy:\n- "

def filterPromptC : String := "\n- "

def filterPromptD : String :=
  "\n\nOutput: Return ONLY the final filtered image. Do not return text."

/-- The instruction generateFilteredImage compiles for a stylistic filter. -/
def generateFilterPrompt (filterRequest : String) : String :=
  filterPromptA ++ filterRequest ++ filterPromptB ++ filterColorDirective ++ filterPromptC ++
    filterRefuseDirective ++ filterPromptD

def adjustPromptA : String :=
  "You are an expert photo editor AI. Your task is to perform a natural, global adjustment to the entire image based on the user\x27s request.\nUser Request: \""

def adjustPromptB : String :=
  "\"\n\nEditing Guidelines:\n- The adjustment must be applied across the entire image.\n- The result must be photorealistic.\n\nSafety & Ethics Policy:\n- "

def adjustPromptC : String := "\n- "

def adjustPromptD : String :=
  "\n\nOutput: Return ONLY the final adjusted image. Do not return text."

/-- The instruction generateAdjustedImage compiles for a global adjustment. -/
def generateAdjustPrompt (adjustmentRequest : String) : String :=
  adjustPromptA ++ adjustmentRequest ++ adjustPromptB ++ skinToneDirective ++ adjustPromptC ++
    refuseRaceDirective ++ adjustPromptD

set_option maxRecDepth 100000 in
/-- Counterexample for C6: the compiled filter instruction for a concrete
filter request contains no occurrence of the substring "skin" at all — so no
skin-tone directive in any phrasing — nor any occurrence of "ambiguous", so
no ambiguity-toward-refusal rule; in particular it does not contain the
skin-tone directive the localized-edit and adjustment instructions embed. -/
theorem filter_prompt_lacks_skin_tone_directive :
    ¬ OccursIn "skin" (generateFilterPrompt "a warm vintage film look") ∧
      ¬ OccursIn "ambiguous" (generateFilterPrompt "a warm vintage film look") ∧
      ¬ OccursIn skinToneDirective (generateFilterPrompt "a warm vintage film look") := by
  refine ⟨by decide, by decide, by decide⟩

/-- Claim C6 (amended: only the localized-edit and adjustment instructions
embed both mandatory directives; the filter instruction embeds instead the
color-shift prohibition and the explicit race-change refusal, without the
skin-tone directive or an ambiguity rule): the safety-policy clauses each
compiled instruction embeds. -/
theorem safety_clause_embedding :
    (∀ (u : String) (x y : Nat),
      OccursIn skinToneDirective (generateEditPrompt u x y) ∧
        OccursIn refuseRaceDirective (generateEditPrompt u x y)) ∧
    (∀ p : String,
      OccursIn skinToneDirective (generateAdjustPrompt p) ∧
        OccursIn refuseRaceDirective (generateAdjustPrompt p)) ∧
    (∀ f : String,
      OccursIn filterColorDirective (generateFilterPrompt f) ∧
        OccursIn filterRefuseDirective (generateFilterPrompt f)) := by
  refine ⟨fun u x y => ⟨?_, ?_⟩, fun p => ⟨?_, ?_⟩, fun f => ⟨?_, ?_⟩⟩
  · unfold generateEditPrompt
    exact occursIn_appendL _ (occursIn_appendL _ (occursIn_appendL _
      (occursIn_appendR _ (occursIn_refl _))))
  · unfold generateEditPrompt
    exact occursIn_appendL _ (occursIn_appendR _ (occursIn_refl _))
  · unfold generateAdjustPrompt
    exact occursIn_appendL _ (occursIn_appendL _ (occursIn_appendL _
      (occursIn_appendR _ (occursIn_refl _))))
  · unfold generateAdjustPrompt
    exact occursIn_appendL _ (occursIn_appendR _ (occursIn_refl _))
  · unfold generateFilterPrompt
    exact occursIn_appendL _ (occursIn_appendL _ (occursIn_appendL _
      (occursIn_appendR _ (occursIn_refl _))))
  · unfold generateFilterPrompt
    exact occursIn_appendL _ (occursIn_appendR _ (occursIn_refl _))

/-! ## The instruction compiler for text replacement (generateTextEditImage) -/

structure TextStyle where
  font : Option String
  size : Option String
  color : Option String
  bold : Option Bool
  italic : Option Bool
  deriving DecidableEq

/-- JavaScript truthiness of an optional string field: present and
non-empty. -/
def strTruthy : Option String → Bool
  | none => false
  | some s => decide (s ≠ "")

/-- JavaScript truthiness of an optional boolean field: present and true. -/
def boolTruthy : Option Bool → Bool
  | none => false
  | some b => b

def fontLine (style : TextStyle) : String := "- Font face similar to: " ++ style.font.getD ""

def sizeLine (style : TextStyle) : String := "- Size: " ++ style.size.getD ""

def colorLine (style : TextStyle) : String := "- Color: " ++ style.color.getD ""

def weightLine : String := "- Weight: Bold"

def italicLine : String := "- Style: Italic"

/-- The styleParts array the source accumulates: one line per truthy
TextStyle field, in field order. -/
def stylePartsOf (style : TextStyle) : List String :=
  (if strTruthy style.font then [fontLine style] else []) ++
    (if strTruthy style.size then [sizeLine style] else []) ++
    (if strTruthy style.color then [colorLine style] else []) ++
    (if boolTruthy style.bold then [weightLine] else []) ++
    (if boolTruthy style.italic then [italicLine] else [])

/-- JavaScript's Array.prototype.join with a newline separator. -/
def joinLines : List String → String
  | [] => ""
  | [x] => x
  | x :: y :: xs => x ++ "\n" ++ joinLines (y :: xs)

def styleHeader : String := "\nKey Style Instructions for the new text:\n"

def inferRuleText : String :=
  "If a style attribute is not specified above, you MUST intelligently match it to the original text\x27s style (\""

def inferRuleTail : String :=
  "\"). If there was no original text, match the surrounding environment for a natural look.\n"

def strictIntro : String :=
  "\nKey Style Instructions for the new text:\nYour primary task is to make the new text, \""

def strictSeam : String :=
  "\", an absolutely seamless replacement for the original text, \""

def strictProcess : String :=
  "\". To achieve this, you must follow a strict process:\n1.  **Analyze the Original Text:** Carefully examine \""

def strictAttributes : String :=
  "\" in the image. Identify all of its visual properties with extreme precision.\n2.  **Extract Key Attributes:** Your analysis must determine the following:\n    -   **Font:** The exact font face, weight (bold, regular), and style (italic, normal).\n    -   **Color:** The precise color, including any gradients, textures, or patterns.\n    -   **Size & Scale:** The font size relative to the image and its surroundings.\n    -   **Perspective & Transformation:** Any rotation, skewing, warping, or perspective applied to the text.\n    -   **Lighting & Effects:** How the text interacts with the scene\x27s lighting. Identify and replicate all shadows, highlights, glows, or bevels.\n3.  **Apply to New Text:** Render the new text, \""

def strictApply : String :=
  "\", using the *exact* attributes you extracted. The new text must occupy the same 3D space as the original.\n\nThe final result must be indistinguishable from a real photograph where the new text was present from the beginning.\n"

/-- The styleInstructions string: the per-field branch when any style line
was accumulated, the strict analyze-the-original-text branch otherwise. -/
def styleInstructionsOf (oldText newText : String) (style : TextStyle) : String :=
  if 0 < (stylePartsOf style).length then
    styleHeader ++ joinLines (stylePartsOf style) ++ "\n\n" ++ inferRuleText ++ oldText ++
      inferRuleTail
  else
    strictIntro ++ newText ++ strictSeam ++ oldText ++ strictProcess ++ oldText ++
      strictAttributes ++ newText ++ strictApply

def textEditPromptA : String :=
  "You are an expert photo editor AI specializing in typography and photorealistic text integration. Your task is to find and replace text within the provided image.\n\nText to find: \""

def textEditPromptB : String := "\"\nText to replace it with: \""

def textEditPromptC : String := "\"\n"

def textEditPromptD : String :=
  "\nGeneral Instructions:\n1.  **Find the Text:** Accurately locate the instance of \""

def textEditPromptE : String :=
  "\" in the image. If there are multiple instances, replace the most prominent one.\n2.  **Reconstruct Background:** Before adding the new text, intelligently remove the original text and reconstruct the background behind it as if the text was never there. This is a critical step.\n3.  **Seamless Integration:** The final result should be photorealistic and indistinguishable from a real photograph. The new text should look like it was part of the original scene.\n4.  **Preserve Image:** The rest of the image (everything other than the text being replaced) must remain absolutely identical to the original.\n\nOutput: Return ONLY the final edited image in the same resolution. Do not return any text, explanations, or dialogue."

/-- The instruction generateTextEditImage compiles for a text replacement. -/
def generateTextEditPrompt (oldText newText : String) (style : TextStyle) : String :=
  textEditPromptA ++ oldText ++ textEditPromptB ++ newText ++ textEditPromptC ++
    styleInstructionsOf oldText newText style ++ textEditPromptD ++ oldText ++ textEditPromptE

/-- Which TextStyle fields count as set: the source's truthiness tests. -/
def anyStyleSet (style : TextStyle) : Bool :=
  strTruthy style.font || strTruthy style.size || strTruthy style.color ||
    boolTruthy style.bold || boolTruthy style.italic

theorem stylePartsOf_eq_nil_iff (style : TextStyle) :
    stylePartsOf style = [] ↔ anyStyleSet style = false := by
  unfold stylePartsOf anyStyleSet
  cases hf : strTruthy style.font <;> cases hs : strTruthy style.size <;>
    cases hc : strTruthy style.color <;> cases hb : boolTruthy style.bold <;>
    cases hi : boolTruthy style.italic <;> simp

theorem mem_stylePartsOf (style : TextStyle) (l : String) :
    l ∈ stylePartsOf style ↔
      (strTruthy style.font = true ∧ l = fontLine style) ∨
      (strTruthy style.size = true ∧ l = sizeLine style) ∨
      (strTruthy style.color = true ∧ l = colorLine style) ∨
      (boolTruthy style.bold = true ∧ l = weightLine) ∨
      (boolTruthy style.italic = true ∧ l = italicLine) := by
  unfold stylePartsOf
  cases hf : strTruthy style.font <;> cases hs : strTruthy style.size <;>
    cases hc : strTruthy style.color <;> cases hb : boolTruthy style.bold <;>
    cases hi : boolTruthy style.italic <;> simp [or_assoc]

theorem occursIn_joinLines (l : String) (ls : List String) (h : l ∈ ls) :
    OccursIn l (joinLines ls) := by
  induction ls with
  | nil => simp at h
  | cons x xs ih =>
      cases xs with
      | nil =>
          simp at h
          subst h
          exact occursIn_refl l
      | cons y ys =>
          rw [show joinLines (x :: y :: ys) = x ++ "\n" ++ joinLines (y :: ys) from rfl]
          rcases List.mem_cons.mp h with h | h
          · subst h
            exact occursIn_appendL _ (occursIn_appendL _ (occursIn_refl l))
          · exact occursIn_appendR _ (ih h)

theorem styleInstructions_occursIn_prompt (oldText newText : String) (style : TextStyle) :
    OccursIn (styleInstructionsOf oldText newText style)
      (generateTextEditPrompt oldText newText style) := by
  unfold generateTextEditPrompt
  exact occursIn_appendL _ (occursIn_appendL _ (occursIn_appendL _
    (occursIn_appendR _ (occursIn_refl _))))

/-- Claim C5: with no TextStyle field set the compiled text-replace
instruction contains the strict-matching language — analyze the original
text's font, color, size/scale, perspective and lighting, and render the
replacement with those exact attributes; with any field set, the style-part
lines are exactly the per-field lines of the set fields and no others, each
embedded in the instruction together with the rule that unspecified
attributes must be matched to the original text's appearance. -/
theorem text_replace_style_branching (oldText newText : String) (style : TextStyle) :
    (anyStyleSet style = false →
      stylePartsOf style = [] ∧
        OccursIn strictAttributes (generateTextEditPrompt oldText newText style) ∧
        OccursIn strictApply (generateTextEditPrompt oldText newText style)) ∧
    (anyStyleSet style = true →
      OccursIn inferRuleText (generateTextEditPrompt oldText newText style) ∧
        OccursIn (joinLines (stylePartsOf style)) (generateTextEditPrompt oldText newText style) ∧
        (∀ l ∈ stylePartsOf style, OccursIn l (generateTextEditPrompt oldText newText style)) ∧
        (∀ l, l ∈ stylePartsOf style ↔
          (strTruthy style.font = true ∧ l = fontLine style) ∨
          (strTruthy style.size = true ∧ l = sizeLine style) ∨
          (strTruthy style.color = true ∧ l = colorLine style) ∨
          (boolTruthy style.bold = true ∧ l = weightLine) ∨
          (boolTruthy style.italic = true ∧ l = italicLine))) := by
  constructor
  · intro hset
    have h0 : stylePartsOf style = [] := (stylePartsOf_eq_nil_iff style).mpr hset
    have hsi : styleInstructionsOf oldText newText style =
        strictIntro ++ newText ++ strictSeam ++ oldText ++ strictProcess ++ oldText ++
          strictAttributes ++ newText ++ strictApply := by
      simp [styleInstructionsOf, h0]
    refine ⟨h0, ?_, ?_⟩
    · refine occursIn_trans ?_ (styleInstructions_occursIn_prompt oldText newText style)
      rw [hsi]
      exact occursIn_appendL _ (occursIn_appendL _ (occursIn_appendR _ (occursIn_refl _)))
    · refine occursIn_trans ?_ (styleInstructions_occursIn_prompt oldText newText style)
      rw [hsi]
      exact occursIn_appendR _ (occursIn_refl _)
  · intro hset
    have h0 : stylePartsOf style ≠ [] := by
      intro h
      rw [(stylePartsOf_eq_nil_iff style).mp h] at hset
      exact Bool.noConfusion hset
    have hlen : 0 < (stylePartsOf style).length := List.length_pos.mpr h0
    have hsi : styleInstructionsOf oldText newText style =
        styleHeader ++ joinLines (stylePartsOf style) ++ "\n\n" ++ inferRuleText ++ oldText ++
          inferRuleTail := by
      simp [styleInstructionsOf, hlen]
    have hjoin : OccursIn (joinLines (stylePartsOf style))
        (generateTextEditPrompt oldText newText style) := by
      refine occursIn_trans ?_ (styleInstructions_occursIn_prompt oldText newText style)
      rw [hsi]
      exact occursIn_appendL _ (occursIn_appendL _ (occursIn_appendL _ (occursIn_appendL _
        (occursIn_appendR _ (occursIn_refl _)))))
    refine ⟨?_, hjoin, ?_, mem_stylePartsOf style⟩
    · refine occursIn_trans ?_ (styleInstructions_occursIn_prompt oldText newText style)
      rw [hsi]
      exact occursIn_appendL _ (occursIn_appendL _ (occursIn_appendR _ (occursIn_refl _)))
    · intro l hl
      exact occursIn_trans (occursIn_joinLines l (stylePartsOf style) hl) hjoin

/-- Witness for C5: for the empty style the strict analyze-the-original-text
language occurs in the compiled instruction; for a style with font and bold
set, the infer rule occurs in the instruction, the font line is among the
accumulated style lines, and the italic line is not. -/
theorem text_replace_style_branching_witness :
    OccursIn strictAttributes (generateTextEditPrompt "OLD" "NEW" ⟨none, none, none, none, none⟩) ∧
      OccursIn inferRuleText
        (generateTextEditPrompt "OLD" "NEW" ⟨some "Arial", none, none, some true, none⟩) ∧
      fontLine ⟨some "Arial", none, none, some true, none⟩ ∈
        stylePartsOf ⟨some "Arial", none, none, some true, none⟩ ∧
      weightLine ∈ stylePartsOf ⟨some "Arial", none, none, some true, none⟩ ∧
      italicLine ∉ stylePartsOf ⟨some "Arial", none, none, some true, none⟩ := by
  have h1 := (text_replace_style_branching "OLD" "NEW" ⟨none, none, none, none, none⟩).1 rfl
  have h2 :=
    (text_replace_style_branching "OLD" "NEW" ⟨some "Arial", none, none, some true, none⟩).2 rfl
  refine ⟨h1.2.1, h2.1, ?_, ?_, ?_⟩
  · exact (h2.2.2.2 (fontLine ⟨some "Arial", none, none, some true, none⟩)).mpr
      (Or.inl ⟨rfl, rfl⟩)
  · exact (h2.2.2.2 weightLine).mpr (Or.inr (Or.inr (Or.inr (Or.inl ⟨rfl, rfl⟩))))
  · intro hmem
    exact absurd ((h2.2.2.2 italicLine).mp hmem) (by decide)

/-- Claim C10: a TextStyle all of whose provided fields are falsy — an
absent or empty-string font, size or color, an absent or false bold or
italic — compiles exactly like the wholly absent style: no per-field line is
accumulated, the strict branch is chosen, and the compiled instruction is
identical to the empty-style instruction. -/
theorem falsy_style_indistinguishable_from_absent (oldText newText : String) (style : TextStyle)
    (hf : style.font = none ∨ style.font = some "")
    (hs : style.size = none ∨ style.size = some "")
    (hc : style.color = none ∨ style.color = some "")
    (hb : style.bold = none ∨ style.bold = some false)
    (hi : style.italic = none ∨ style.italic = some false) :
    stylePartsOf style = [] ∧
      generateTextEditPrompt oldText newText style =
        generateTextEditPrompt oldText newText ⟨none, none, none, none, none⟩ := by
  have h0 : stylePartsOf style = [] := by
    unfold stylePartsOf
    rcases hf with hf | hf <;> rcases hs with hs | hs <;> rcases hc with hc | hc <;>
      rcases hb with hb | hb <;> rcases hi with hi | hi <;>
      simp [hf, hs, hc, hb, hi, strTruthy, boolTruthy]
  have he : stylePartsOf ⟨none, none, none, none, none⟩ = ([] : List String) := rfl
  refine ⟨h0, ?_⟩
  unfold generateTextEditPrompt
  rw [show styleInstructionsOf oldText newText style =
        styleInstructionsOf oldText newText ⟨none, none, none, none, none⟩ by
      simp [styleInstructionsOf, h0, he]]

/-- Witness for C10: the style providing the empty string for font, size and
color and false for bold and italic compiles the same instruction as the
absent style. -/
theorem falsy_style_indistinguishable_from_absent_witness :
    stylePartsOf ⟨some "", some "", some "", some false, some false⟩ = [] ∧
      generateTextEditPrompt "SALE" "SOLD" ⟨some "", some "", some "", some false, some false⟩ =
        generateTextEditPrompt "SALE" "SOLD" ⟨none, none, none, none, none⟩ :=
  falsy_style_indistinguishable_from_absent "SALE" "SOLD"
    ⟨some "", some "", some "", some false, some false⟩
    (Or.inr rfl) (Or.inr rfl) (Or.inr rfl) (Or.inr rfl) (Or.inr rfl)

end JengaPix
